import Mathlib

/-!
Shallow embedding of the realtime collaborative diagram backend
(`src/backend/src/diagram-realtime/realtime.service.ts`,
`src/backend/src/diagram-realtime/diagram.gateway.ts`,
`src/backend/src/diagrams/diagrams.module.ts` service part).

JavaScript values flowing through the snapshot normalizer are modelled by an
inductive `Json` type; `null`/`undefined` are both represented by `Json.null`
(the source only distinguishes them via `== null`, which matches both).
`JSON.parse` is an external runtime primitive, so it is taken as an abstract
parameter `parse : String -> Option Json` (`none` models a parse exception).
Wall-clock reads (`new Date().toISOString()`) are modelled by explicit string
parameters: `t0` is the timestamp taken once at module initialization (the
`EMPTY_SNAPSHOT` module constant), `now` the timestamp at the current call.
-/

namespace Spec2Proof

/-- JSON / JavaScript value model for snapshots and patches. -/
inductive Json where
  | null : Json
  | str (s : String) : Json
  | num (n : Int) : Json
  | boolean (b : Bool) : Json
  | arr (xs : List Json) : Json
  | obj (fields : List (String × Json)) : Json

/-- Document snapshot type `DiagramSnapshot` from `realtime.service.ts`:
nodes, edges and an ISO timestamp string. -/
structure DiagramSnapshot where
  nodes : List Json
  edges : List Json
  updatedAt : String

/-- Module constant `EMPTY_SNAPSHOT` from `realtime.service.ts` lines 15-19.
Its `updatedAt` is the single `new Date().toISOString()` evaluated at module
load, passed here as `t0`; every `{ ...EMPTY_SNAPSHOT }` spread copies it. -/
def EMPTY_SNAPSHOT (t0 : String) : DiagramSnapshot :=
  { nodes := [], edges := [], updatedAt := t0 }

/-- Source `coerceSnapshot` (`realtime.service.ts` lines 53-61): keeps `nodes`
and `edges` only when they are arrays, keeps `updatedAt` only when it is a
truthy (non-empty) string, otherwise stamps the call-time clock `now`. -/
def coerceSnapshot (now : String) (fields : List (String × Json)) :
    DiagramSnapshot :=
  let nodes := match fields.lookup "nodes" with
    | some (Json.arr xs) => xs
    | _ => []
  let edges := match fields.lookup "edges" with
    | some (Json.arr xs) => xs
    | _ => []
  let updatedAt := match fields.lookup "updatedAt" with
    | some (Json.str s) => if s = "" then now else s
    | _ => now
  { nodes := nodes, edges := edges, updatedAt := updatedAt }

/-- Source `toSnapshot` (`realtime.service.ts` lines 26-51), the Snapshot
Normalizer. `value == null` returns a spread of `EMPTY_SNAPSHOT` (timestamp
`t0`); a string is parsed and coerced when the result is a record, else falls
back to `EMPTY_SNAPSHOT`; a record is coerced; any other value yields
`EMPTY_SNAPSHOT`. -/
def toSnapshot (parse : String → Option Json) (t0 now : String) :
    Json → DiagramSnapshot
  | Json.null => EMPTY_SNAPSHOT t0
  | Json.str s =>
      match parse s with
      | some (Json.obj fields) => coerceSnapshot now fields
      | _ => EMPTY_SNAPSHOT t0
  | Json.obj fields => coerceSnapshot now fields
  | _ => EMPTY_SNAPSHOT t0

/-- Reinjection of a `DiagramSnapshot` record as the JavaScript object it is:
a plain object with `nodes`, `edges`, `updatedAt` properties. Used to feed a
normalizer output back into the normalizer. -/
def snapshotToJson (s : DiagramSnapshot) : Json :=
  Json.obj [("nodes", Json.arr s.nodes), ("edges", Json.arr s.edges),
            ("updatedAt", Json.str s.updatedAt)]

theorem coerceSnapshot_updatedAt_ne (now : String) (hn : now ≠ "")
    (fields : List (String × Json)) :
    (coerceSnapshot now fields).updatedAt ≠ "" := by
  unfold coerceSnapshot
  simp only
  match h : fields.lookup "updatedAt" with
  | some (Json.str s) =>
      simp only [h]
      by_cases hs : s = "" <;> simp [hs, hn]
  | some Json.null | some (Json.num _) | some (Json.boolean _)
  | some (Json.arr _) | some (Json.obj _) | none =>
      simp [h, hn]

theorem toSnapshot_updatedAt_ne (parse : String → Option Json)
    (t0 now : String) (h0 : t0 ≠ "") (hn : now ≠ "") (x : Json) :
    (toSnapshot parse t0 now x).updatedAt ≠ "" := by
  unfold toSnapshot
  match x with
  | Json.null => exact h0
  | Json.str s =>
      simp only
      match hp : parse s with
      | some (Json.obj fields) =>
          simp only [hp]
          exact coerceSnapshot_updatedAt_ne now hn fields
      | some Json.null | some (Json.str _) | some (Json.num _)
      | some (Json.boolean _) | some (Json.arr _) | none =>
          simp [hp, EMPTY_SNAPSHOT, h0]
  | Json.obj fields => exact coerceSnapshot_updatedAt_ne now hn fields
  | Json.num _ | Json.boolean _ | Json.arr _ => exact h0

theorem toSnapshot_of_snapshotToJson (parse : String → Option Json)
    (t0 now : String) (s : DiagramSnapshot) (hs : s.updatedAt ≠ "") :
    toSnapshot parse t0 now (snapshotToJson s) = s := by
  unfold snapshotToJson toSnapshot coerceSnapshot
  simp [List.lookup, hs]

/-- Durable edit request row (`EditRequest` model): keyed by
(projectId, requesterId), with a message and a `PENDING`/`APPROVED` status. -/
structure EditRequest where
  projectId : String
  requesterId : String
  message : Option String
  status : String

/-- Persistent store as consumed by the gateway and services: projects
(id to ownerId), project memberships ((projectId, userId) to role), diagram
rows (projectId to the persisted `snapshot` JSON), and edit requests. -/
structure Store where
  projects : List (String × String)
  members : List ((String × String) × String)
  diagrams : List (String × Json)
  editRequests : List EditRequest

/-- In-memory room state (`RoomState` in `realtime.service.ts`): current
snapshot and the queue of not-yet-persisted patches. The `debouncedSave`
closure is modelled by the save-trigger flag returned by `queuePatch`. -/
structure RoomState where
  snapshot : DiagramSnapshot
  pendingPatches : List Json

/-- The `RealtimeService` in-memory state: the `rooms` map, as an
association list from projectId to room state. -/
structure RtState where
  rooms : List (String × RoomState)

/-- External collaborators and ambient clock of the gateway/service:
`tokenUser` models `jwt.verify` plus the `payload.id || payload.sub`
extraction (`none` on verification failure), `validateShare` the truthiness
of `share.validateShareToken`, `parse` the `JSON.parse` primitive, `t0` the
module-initialization timestamp, `now` the current wall-clock reading. -/
structure GatewayCtx where
  tokenUser : String → Option String
  validateShare : String → String → Bool
  parse : String → Option Json
  t0 : String
  now : String

/-- Source `loadInitial` (`realtime.service.ts` lines 77-98): read the
diagram row; when absent, create one holding a spread of `EMPTY_SNAPSHOT`
and return that fresh snapshot; otherwise normalize the persisted value via
`toSnapshot`. Returns the snapshot and the possibly-extended store. -/
def loadInitial (ctx : GatewayCtx) (store : Store) (projectId : String) :
    DiagramSnapshot × Store :=
  match store.diagrams.lookup projectId with
  | none =>
      let fresh := EMPTY_SNAPSHOT ctx.t0
      (fresh, { store with
                  diagrams := (projectId, snapshotToJson fresh) ::
                    store.diagrams })
  | some snap => (toSnapshot ctx.parse ctx.t0 ctx.now snap, store)

/-- Source `getRoom` (`realtime.service.ts` lines 100-102): non-blocking
lookup in the rooms map. -/
def getRoom (rt : RtState) (projectId : String) : Option RoomState :=
  rt.rooms.lookup projectId

/-- Result of `ensureRoom`: the room, the updated rooms map and store, and
whether a store load (`loadInitial`) was performed. -/
structure EnsureResult where
  room : RoomState
  rt : RtState
  store : Store
  loaded : Bool

/-- Source `ensureRoom` (`realtime.service.ts` lines 105-136): return the
registered room when present; otherwise `loadInitial`, build a room with an
empty patch queue, register it and return it. `loaded` records whether the
slow path (a store read) ran. -/
def ensureRoom (ctx : GatewayCtx) (rt : RtState) (store : Store)
    (projectId : String) : EnsureResult :=
  match rt.rooms.lookup projectId with
  | some room => { room := room, rt := rt, store := store, loaded := false }
  | none =>
      let loadRes := loadInitial ctx store projectId
      let room : RoomState := { snapshot := loadRes.1, pendingPatches := [] }
      { room := room, rt := { rooms := (projectId, room) :: rt.rooms },
        store := loadRes.2, loaded := true }

/-- Replacement of the room registered under `p` (mutation of the room object
held in the `rooms` map). -/
def setRoom (rooms : List (String × RoomState)) (p : String) (r : RoomState) :
    List (String × RoomState) :=
  rooms.map fun e => if e.1 == p then (p, r) else e

/-- Source `queuePatch` (`realtime.service.ts` lines 139-146): no-op when no
room is registered for the project; otherwise push the patch onto the room's
queue and invoke the debounced save. The returned flag records whether the
debounced save trigger was invoked. -/
def queuePatch (rt : RtState) (projectId : String) (patch : Json) :
    RtState × Bool :=
  match rt.rooms.lookup projectId with
  | none => (rt, false)
  | some room =>
      let room2 := { room with
                       pendingPatches := room.pendingPatches ++ [patch] }
      ({ rooms := setRoom rt.rooms projectId room2 }, true)

/-- Connection role, as assigned at join time. -/
inductive Role where
  | VIEWER : Role
  | EDITOR : Role
  | OWNER : Role
deriving DecidableEq

/-- Per-connection cached state `client.data` set by a successful join. -/
structure ConnData where
  projectId : String
  userId : Option String
  role : Role

/-- Emission target of a socket event: `client.emit` (the sender only),
`server.to(room).emit` (every member of the room, sender included), and
`client.to(room).emit` (every member except the sender). -/
inductive Target where
  | toSender : Target
  | toRoom (room : String) : Target
  | toRoomExceptSender (room : String) : Target

/-- Socket events emitted by the gateway handlers under verification. -/
inductive Event where
  | joinDenied (reason : String) : Event
  | joined (snapshot : DiagramSnapshot) (role : Role) : Event
  | presence (userId : Option String) (role : Role) (ev : String) : Event
  | editDenied (reason : String) : Event
  | remotePatch (patch : Json) : Event
  | memberUpdated (userId : String) (role : String) : Event

/-- One emitted event together with its target audience. -/
structure Emitted where
  target : Target
  event : Event

/-- JavaScript truthiness of a nullable string (`null`/`undefined` and the
empty string are falsy). -/
def optTruthy : Option String → Bool
  | none => false
  | some s => s ≠ ""

/-- Source `parseUserIdFromToken` (`diagram.gateway.ts` lines 36-44):
falsy/absent token gives null; otherwise `jwt.verify` plus
`payload.id || payload.sub || null`, with any verification error degrading
to null. A falsy extracted id also degrades to null via the `||` chain. -/
def parseUserIdFromToken (ctx : GatewayCtx) (token : Option String) :
    Option String :=
  match token with
  | none => none
  | some t =>
      if t = "" then none
      else
        match ctx.tokenUser t with
        | none => none
        | some s => if s = "" then none else some s

/-- Line 54-56 of `diagram.gateway.ts`: the snapshot served to a joining
client is the hot room's snapshot when one is registered, else the result of
`loadInitial` (which may create the diagram row). Note this path never
registers a room. -/
def joinLoad (ctx : GatewayCtx) (rt : RtState) (store : Store)
    (projectId : String) : DiagramSnapshot × Store :=
  match getRoom rt projectId with
  | some room => (room.snapshot, store)
  | none => loadInitial ctx store projectId

/-- Outcome of the `join` handler: events emitted (in order), the new
`client.data`, the broadcast group the socket joined (if any), and the
resulting realtime state and store. -/
structure JoinOutcome where
  events : List Emitted
  connData : Option ConnData
  joinedRoom : Option String
  rt : RtState
  store : Store

/-- Source `handleJoin` (`diagram.gateway.ts` lines 47-92). Resolve the
snapshot (hot room or `loadInitial`), resolve identity, then roles: an
authenticated owner gets OWNER, an authenticated member EDITOR, any other
authenticated user keeps the initial VIEWER default and is joined; an
unauthenticated join with a truthy share token is VIEWER when the token
validates and denied `invalid_share_link` otherwise; an unauthenticated
join without share token is denied `unauthorized`. On success the socket
joins the project group, caches its data, receives `joined` and the group
receives a `presence` join event. -/
def handleJoin (ctx : GatewayCtx) (rt : RtState) (store : Store)
    (connData : Option ConnData) (projectId : String)
    (shareToken authToken : Option String) : JoinOutcome :=
  let loaded := joinLoad ctx rt store projectId
  let snapshot := loaded.1
  let store1 := loaded.2
  let userId := parseUserIdFromToken ctx authToken
  match userId with
  | some u =>
      let role : Role :=
        match store1.projects.lookup projectId with
        | none => Role.VIEWER
        | some ownerId =>
            if ownerId = u then Role.OWNER
            else if (store1.members.lookup (projectId, u)).isSome then
              Role.EDITOR
            else Role.VIEWER
      { events := [⟨Target.toSender, Event.joined snapshot role⟩,
                   ⟨Target.toRoom projectId,
                    Event.presence (some u) role "join"⟩],
        connData := some ⟨projectId, some u, role⟩,
        joinedRoom := some projectId, rt := rt, store := store1 }
  | none =>
      if optTruthy shareToken then
        if ctx.validateShare projectId (shareToken.getD "") then
          { events := [⟨Target.toSender,
                        Event.joined snapshot Role.VIEWER⟩,
                       ⟨Target.toRoom projectId,
                        Event.presence none Role.VIEWER "join"⟩],
            connData := some ⟨projectId, none, Role.VIEWER⟩,
            joinedRoom := some projectId, rt := rt, store := store1 }
        else
          { events := [⟨Target.toSender,
                        Event.joinDenied "invalid_share_link"⟩],
            connData := connData, joinedRoom := none,
            rt := rt, store := store1 }
      else
        { events := [⟨Target.toSender, Event.joinDenied "unauthorized"⟩],
          connData := connData, joinedRoom := none,
          rt := rt, store := store1 }

/-- Source `handlePatch` (`diagram.gateway.ts` lines 95-114). A message whose
projectId differs from the connection's cached one (or a connection that
never joined) is silently dropped. A VIEWER (or any non-EDITOR/OWNER role)
gets `editDenied`, reason chosen by the truthiness of the cached userId.
Otherwise the patch is queued (invoking the debounced save) and relayed to
the other group members. Returns (events, realtime state, save-triggered). -/
def handlePatch (rt : RtState) (connData : Option ConnData)
    (projectId : String) (patch : Json) : List Emitted × RtState × Bool :=
  match connData with
  | none => ([], rt, false)
  | some d =>
      if d.projectId ≠ projectId then ([], rt, false)
      else if d.role = Role.EDITOR ∨ d.role = Role.OWNER then
        let q := queuePatch rt projectId patch
        ([⟨Target.toRoomExceptSender projectId, Event.remotePatch patch⟩],
         q.1, q.2)
      else
        ([⟨Target.toSender,
           Event.editDenied
             (if optTruthy d.userId then "no_permission"
              else "login_required")⟩], rt, false)

/-- Membership upsert keyed by (projectId, userId): update the role of the
existing row, or insert a new row. -/
def upsertMember (store : Store) (p u role : String) : Store :=
  if (store.members.lookup (p, u)).isSome then
    { store with
        members := store.members.map fun e =>
          if e.1 == (p, u) then (e.1, role) else e }
  else { store with members := ((p, u), role) :: store.members }

/-- The `editRequest.updateMany` call of the approval flow: every PENDING
request of (projectId, requesterId) becomes APPROVED. -/
def approvePending (store : Store) (p u : String) : Store :=
  { store with
      editRequests := store.editRequests.map fun r =>
        if r.projectId == p && r.requesterId == u && r.status == "PENDING"
        then { r with status := "APPROVED" } else r }

/-- Source `approve` (`diagram.gateway.ts` lines 163-195). The destructured
`role` defaults to EDITOR when absent. A falsy cached userId returns
silently; the owner is re-checked against the store (missing project or a
different owner returns silently). On success the target membership is
upserted (role coerced to EDITOR/VIEWER), pending edit requests are
approved, and `memberUpdated` (carrying the raw requested role) is broadcast
to the project group. -/
def approve (store : Store) (connUserId : Option String)
    (projectId userId : String) (roleArg : Option String) :
    List Emitted × Store :=
  let roleVal := roleArg.getD "EDITOR"
  match connUserId with
  | none => ([], store)
  | some me =>
      if me = "" then ([], store)
      else
        match store.projects.lookup projectId with
        | none => ([], store)
        | some ownerId =>
            if ownerId ≠ me then ([], store)
            else
              let coerced := if roleVal = "EDITOR" then "EDITOR"
                             else "VIEWER"
              let store1 := upsertMember store projectId userId coerced
              let store2 := approvePending store1 projectId userId
              ([⟨Target.toRoom projectId,
                 Event.memberUpdated userId roleVal⟩], store2)

/-- Access-control failure taxonomy of the REST diagram endpoint. -/
inductive AccessError where
  | notFound : AccessError
  | forbidden : AccessError
deriving DecidableEq

/-- Source `assertProjectAccess` (`diagrams.module.ts` service): 404 when the
project is absent, 403 when the caller is neither owner nor member. -/
def assertProjectAccess (store : Store) (userId projectId : String) :
    Except AccessError Unit :=
  match store.projects.lookup projectId with
  | none => Except.error AccessError.notFound
  | some ownerId =>
      if ownerId = userId ∨ (store.members.lookup (projectId, userId)).isSome
      then Except.ok ()
      else Except.error AccessError.forbidden

/-- Source `getOrInit` (`diagrams.module.ts` service): find the diagram row;
when absent, create one with a fresh well-formed empty snapshot; return the
row's `snapshot` field raw — the load path performs no normalization. -/
def getOrInit (now : String) (store : Store) (projectId : String) :
    Json × Store :=
  match store.diagrams.lookup projectId with
  | some snap => (snap, store)
  | none =>
      let fresh : Json := Json.obj [("nodes", Json.arr []),
                                    ("edges", Json.arr []),
                                    ("updatedAt", Json.str now)]
      (fresh, { store with diagrams := (projectId, fresh) :: store.diagrams })

/-- Source `getOrInitForUser`: the REST GET path, `assertProjectAccess` then
`getOrInit`. -/
def getOrInitForUser (now : String) (store : Store)
    (userId projectId : String) : Except AccessError (Json × Store) :=
  match assertProjectAccess store userId projectId with
  | Except.error e => Except.error e
  | Except.ok _ => Except.ok (getOrInit now store projectId)

/-- Snapshot invariant check on a raw JSON value: it is an object whose
`nodes` and `edges` properties are both present and are sequences. -/
def hasSeqFields : Json → Bool
  | Json.obj fields =>
      (match fields.lookup "nodes" with
       | some (Json.arr _) => true
       | _ => false) &&
      (match fields.lookup "edges" with
       | some (Json.arr _) => true
       | _ => false)
  | _ => false

theorem loadInitial_projects (ctx : GatewayCtx) (store : Store)
    (p : String) : (loadInitial ctx store p).2.projects = store.projects := by
  unfold loadInitial
  match h : store.diagrams.lookup p with
  | none => simp [h]
  | some s => simp [h]

theorem loadInitial_members (ctx : GatewayCtx) (store : Store)
    (p : String) : (loadInitial ctx store p).2.members = store.members := by
  unfold loadInitial
  match h : store.diagrams.lookup p with
  | none => simp [h]
  | some s => simp [h]

theorem joinLoad_projects (ctx : GatewayCtx) (rt : RtState) (store : Store)
    (p : String) : (joinLoad ctx rt store p).2.projects = store.projects := by
  unfold joinLoad
  match h : getRoom rt p with
  | some room => simp [h]
  | none => simp [h, loadInitial_projects]

theorem joinLoad_members (ctx : GatewayCtx) (rt : RtState) (store : Store)
    (p : String) : (joinLoad ctx rt store p).2.members = store.members := by
  unfold joinLoad
  match h : getRoom rt p with
  | some room => simp [h]
  | none => simp [h, loadInitial_members]

/-- C4: the claim calls for `normalize(null)` to carry the current time of
the call; evaluated at the failing input, the normalizer instead returns the
module-initialization timestamp `t0` frozen inside `EMPTY_SNAPSHOT`, for any
later call-time clock reading `now`, here a day later. Nodes and edges are
the empty sequences as claimed. -/
theorem C4_normalize_null_stamps_module_time :
    toSnapshot (fun _ => none) "2024-01-01T00:00:00.000Z"
        "2024-01-02T00:00:00.000Z" Json.null =
      { nodes := [], edges := [],
        updatedAt := "2024-01-01T00:00:00.000Z" } := rfl

/-- C5: the snapshot normalizer is idempotent — renormalizing the object a
normalization run produced gives the same snapshot back, for every input,
every parse behavior and every pair of clock readings, provided the clock
strings (ISO timestamps in the source) are non-empty. -/
theorem C5_normalize_idempotent (parse parse2 : String → Option Json)
    (t0 now t02 now2 : String) (h0 : t0 ≠ "") (h1 : now ≠ "") (x : Json) :
    toSnapshot parse2 t02 now2 (snapshotToJson (toSnapshot parse t0 now x)) =
      toSnapshot parse t0 now x :=
  toSnapshot_of_snapshotToJson parse2 t02 now2 _
    (toSnapshot_updatedAt_ne parse t0 now h0 h1 x)

/-- Witness for C5 at the concrete input `null` with concrete clocks. -/
theorem C5_normalize_idempotent_witness :
    ("T0" : String) ≠ "" ∧ ("T1" : String) ≠ "" ∧
    toSnapshot (fun _ => none) "T0" "T1"
        (snapshotToJson (toSnapshot (fun _ => none) "T0" "T1" Json.null)) =
      toSnapshot (fun _ => none) "T0" "T1" Json.null :=
  ⟨by decide, by decide,
   C5_normalize_idempotent (fun _ => none) (fun _ => none) "T0" "T1" "T0"
     "T1" (by decide) (by decide) Json.null⟩

/-- Counterexample to C3 as stated: with a persisted diagram row whose
`snapshot` column is the malformed value `null`, the REST GET
(load-or-initialize) path returns the raw `null` to an authorized caller,
which does not satisfy the nodes/edges-are-sequences invariant. -/
theorem C3_counterexample :
    getOrInitForUser "NOW" ⟨[("p1", "u1")], [], [("p1", Json.null)], []⟩
        "u1" "p1" =
      Except.ok (Json.null,
        ⟨[("p1", "u1")], [], [("p1", Json.null)], []⟩) ∧
    hasSeqFields Json.null = false :=
  ⟨rfl, rfl⟩

/-- C3 (amended): the REST GET load-or-initialize path guarantees the
snapshot invariant only on the initialize path — when no diagram row exists,
the freshly created snapshot has sequence `nodes`/`edges`; when a row
exists, the persisted value is returned as-is, without normalization. -/
theorem C3_rest_get_load_or_init (now : String) (store : Store)
    (p : String) :
    (store.diagrams.lookup p = none →
      hasSeqFields (getOrInit now store p).1 = true) ∧
    (∀ snap, store.diagrams.lookup p = some snap →
      (getOrInit now store p).1 = snap) := by
  constructor
  · intro h
    simp [getOrInit, h, hasSeqFields, List.lookup]
  · intro snap h
    simp [getOrInit, h]

/-- Witness for C3 (amended): both conjuncts at concrete stores — an empty
store yields a well-formed fresh snapshot, and a store holding the malformed
row `null` gets it back unnormalized. -/
theorem C3_rest_get_load_or_init_witness :
    hasSeqFields (getOrInit "NOW" ⟨[], [], [], []⟩ "p1").1 = true ∧
    (getOrInit "NOW" ⟨[], [], [("p1", Json.null)], []⟩ "p1").1 =
      Json.null :=
  ⟨(C3_rest_get_load_or_init "NOW" ⟨[], [], [], []⟩ "p1").1 rfl,
   (C3_rest_get_load_or_init "NOW" ⟨[], [], [("p1", Json.null)], []⟩
      "p1").2 Json.null rfl⟩

/-- C8: `ensureRoom` is idempotent — immediately re-running it for the same
project (no intervening patch) returns the very room the first call
produced, leaves the rooms map and the store untouched, and performs no
second store load. -/
theorem C8_ensureRoom_idempotent (ctx : GatewayCtx) (rt : RtState)
    (store : Store) (p : String) :
    ensureRoom ctx (ensureRoom ctx rt store p).rt
        (ensureRoom ctx rt store p).store p =
      { room := (ensureRoom ctx rt store p).room,
        rt := (ensureRoom ctx rt store p).rt,
        store := (ensureRoom ctx rt store p).store,
        loaded := false } := by
  unfold ensureRoom
  match h : rt.rooms.lookup p with
  | some room => simp [h]
  | none => simp [h, List.lookup]

/-- C6: a patch from a joined VIEWER connection with matching projectId
broadcasts no `remotePatch`, enqueues nothing (realtime state unchanged, no
save trigger), and answers the sender with `editDenied`, reason
`no_permission` when the connection carries a (truthy) userId and
`login_required` when it does not. -/
theorem C6_viewer_patch_denied (rt : RtState) (d : ConnData) (p : String)
    (patch : Json) (hp : d.projectId = p) (hr : d.role = Role.VIEWER) :
    handlePatch rt (some d) p patch =
      ([⟨Target.toSender,
         Event.editDenied (if optTruthy d.userId then "no_permission"
                           else "login_required")⟩], rt, false) := by
  unfold handlePatch
  simp [hp, hr]

/-- Witness for C6: an authenticated viewer and an anonymous viewer, each
denied with the matching reason. -/
theorem C6_viewer_patch_denied_witness :
    handlePatch ⟨[]⟩ (some ⟨"p1", some "u1", Role.VIEWER⟩) "p1" Json.null =
      ([⟨Target.toSender, Event.editDenied "no_permission"⟩], ⟨[]⟩,
       false) ∧
    handlePatch ⟨[]⟩ (some ⟨"p1", none, Role.VIEWER⟩) "p1" Json.null =
      ([⟨Target.toSender, Event.editDenied "login_required"⟩], ⟨[]⟩,
       false) :=
  ⟨C6_viewer_patch_denied ⟨[]⟩ ⟨"p1", some "u1", Role.VIEWER⟩ "p1"
     Json.null rfl rfl,
   C6_viewer_patch_denied ⟨[]⟩ ⟨"p1", none, Role.VIEWER⟩ "p1"
     Json.null rfl rfl⟩

/-- C7: a patch whose projectId differs from the connection's cached joined
projectId is silently dropped — no events at all (neither broadcast nor
denial) and no realtime-state change (nothing enqueued, no save trigger). -/
theorem C7_patch_isolation (rt : RtState) (d : ConnData) (p : String)
    (patch : Json) (hne : d.projectId ≠ p) :
    handlePatch rt (some d) p patch = ([], rt, false) := by
  unfold handlePatch
  simp [hne]

/-- Witness for C7 at a concrete mismatching projectId. -/
theorem C7_patch_isolation_witness :
    handlePatch ⟨[]⟩ (some ⟨"p1", some "u1", Role.EDITOR⟩) "p2"
        Json.null = ([], ⟨[]⟩, false) :=
  C7_patch_isolation ⟨[]⟩ ⟨"p1", some "u1", Role.EDITOR⟩ "p2" Json.null
    (by decide)

/-- C9: an `approveEdit` from an unauthenticated sender, or one whose userId
fails the server-side owner re-check (project absent, or a different owner),
is a silent no-op — no events (hence no `memberUpdated` broadcast) and an
unchanged store (no membership upsert, no EditRequest transition). -/
theorem C9_approve_unauthorized_noop (store : Store) (cu : Option String)
    (p u : String) (ra : Option String)
    (h : optTruthy cu = false ∨ store.projects.lookup p = none ∨
         ∀ ow, store.projects.lookup p = some ow → cu ≠ some ow) :
    approve store cu p u ra = ([], store) := by
  unfold approve
  match cu with
  | none => simp
  | some me =>
      by_cases hme : me = ""
      · simp [hme]
      · rcases h with h | h | h
        · exact absurd h (by simp [optTruthy, hme])
        · simp [hme, h]
        · match hpo : store.projects.lookup p with
          | none => simp [hme, hpo]
          | some ow =>
              have hne : ow ≠ me := fun e => (h ow hpo) (by rw [e])
              simp [hme, hpo, hne]

/-- Witness for C9: an anonymous sender, and an authenticated sender who is
not the stored owner, each leave events and store untouched. -/
theorem C9_approve_unauthorized_noop_witness :
    approve ⟨[("p1", "own1")], [], [], []⟩ none "p1" "u2" none =
      ([], ⟨[("p1", "own1")], [], [], []⟩) ∧
    approve ⟨[("p1", "own1")], [], [], []⟩ (some "u9") "p1" "u2"
        (some "EDITOR") =
      ([], ⟨[("p1", "own1")], [], [], []⟩) :=
  ⟨C9_approve_unauthorized_noop ⟨[("p1", "own1")], [], [], []⟩ none "p1"
     "u2" none (Or.inl rfl),
   C9_approve_unauthorized_noop ⟨[("p1", "own1")], [], [], []⟩
     (some "u9") "p1" "u2" (some "EDITOR")
     (Or.inr (Or.inr fun ow hw => by
        simp [List.lookup] at hw
        subst hw
        decide))⟩

/-- Fixture context for the C1 scenarios: the bearer token `tok` verifies to
user `u2`; share links never validate; the parser always fails. -/
def ctxC1 : GatewayCtx :=
  ⟨fun t => if t = "tok" then some "u2" else none, fun _ _ => false,
   fun _ => none, "T0", "T1"⟩

/-- Fixture realtime state for C1: project `p1` has a hot room. -/
def rtC1 : RtState := ⟨[("p1", ⟨⟨[], [], "T"⟩, []⟩)]⟩

/-- Fixture store for C1: project `p1` is owned by `own1` and has no
members, so `u2` is authenticated but neither owner nor member. -/
def storeC1 : Store := ⟨[("p1", "own1")], [], [], []⟩

/-- Counterexample to C1 as stated: user `u2` authenticates via `tok`, is
neither owner nor member of `p1`, and presents no share token — yet the
handler emits no `joinDenied`: it joins the socket to the `p1` group and
emits `joined` with the snapshot and role VIEWER. -/
theorem C1_counterexample :
    handleJoin ctxC1 rtC1 storeC1 none "p1" none (some "tok") =
      { events := [⟨Target.toSender,
                    Event.joined ⟨[], [], "T"⟩ Role.VIEWER⟩,
                   ⟨Target.toRoom "p1",
                    Event.presence (some "u2") Role.VIEWER "join"⟩],
        connData := some ⟨"p1", some "u2", Role.VIEWER⟩,
        joinedRoom := some "p1", rt := rtC1, store := storeC1 } := rfl

/-- C1 (amended): a join whose authToken verifies to a user who is neither
the project's owner nor a member, carrying no share token, is not denied —
it succeeds with the default role VIEWER: the socket joins the document
group, receives `joined` with the snapshot, and a presence event is
broadcast. -/
theorem C1_authenticated_nonmember_joins_as_viewer
    (ctx : GatewayCtx) (rt : RtState) (store : Store) (cd : Option ConnData)
    (p : String) (tok : Option String) (u : String)
    (hu : parseUserIdFromToken ctx tok = some u)
    (hOwn : ∀ ow, store.projects.lookup p = some ow → ow ≠ u)
    (hMem : store.members.lookup (p, u) = none) :
    handleJoin ctx rt store cd p none tok =
      { events := [⟨Target.toSender,
                    Event.joined (joinLoad ctx rt store p).1 Role.VIEWER⟩,
                   ⟨Target.toRoom p,
                    Event.presence (some u) Role.VIEWER "join"⟩],
        connData := some ⟨p, some u, Role.VIEWER⟩,
        joinedRoom := some p, rt := rt,
        store := (joinLoad ctx rt store p).2 } := by
  have hpr := joinLoad_projects ctx rt store p
  have hme := joinLoad_members ctx rt store p
  unfold handleJoin
  simp only [hu, hpr, hme]
  match hpo : store.projects.lookup p with
  | none => simp [hpo]
  | some ow =>
      have hne : ow ≠ u := hOwn ow hpo
      simp [hpo, hne, hMem]

/-- Witness for C1 (amended) at the concrete fixture. -/
theorem C1_authenticated_nonmember_joins_as_viewer_witness :
    parseUserIdFromToken ctxC1 (some "tok") = some "u2" ∧
    storeC1.members.lookup ("p1", "u2") = none ∧
    handleJoin ctxC1 rtC1 storeC1 none "p1" none (some "tok") =
      { events := [⟨Target.toSender,
                    Event.joined (joinLoad ctxC1 rtC1 storeC1 "p1").1
                      Role.VIEWER⟩,
                   ⟨Target.toRoom "p1",
                    Event.presence (some "u2") Role.VIEWER "join"⟩],
        connData := some ⟨"p1", some "u2", Role.VIEWER⟩,
        joinedRoom := some "p1", rt := rtC1,
        store := (joinLoad ctxC1 rtC1 storeC1 "p1").2 } :=
  ⟨rfl, rfl,
   C1_authenticated_nonmember_joins_as_viewer ctxC1 rtC1 storeC1 none "p1"
     (some "tok") "u2" rfl
     (fun ow hw => by
        simp [storeC1, List.lookup] at hw
        subst hw
        decide)
     rfl⟩

/-- Fixture context for the C2 scenario: `tok` verifies to the owner
`own1`. -/
def ctxC2 : GatewayCtx :=
  ⟨fun t => if t = "tok" then some "own1" else none, fun _ _ => false,
   fun _ => none, "T0", "T1"⟩

/-- Fixture store for C2: project `p1` owned by `own1`, with a persisted
well-formed diagram row, and no hot room yet. -/
def storeC2 : Store :=
  ⟨[("p1", "own1")], [], [("p1", snapshotToJson ⟨[], [], "T"⟩)], []⟩

/-- C2 evaluated at the failing input: the owner's first join to `p1`
completes successfully (`joined` emitted, socket in the group), yet the
handler registered no room — `getRoom` still returns nothing afterwards, so
a subsequent `queuePatch` from that connection is a no-op (state unchanged,
no save trigger) instead of enqueuing the patch. -/
theorem C2_successful_join_registers_no_room :
    (handleJoin ctxC2 ⟨[]⟩ storeC2 none "p1" none (some "tok")).events =
      [⟨Target.toSender, Event.joined ⟨[], [], "T"⟩ Role.OWNER⟩,
       ⟨Target.toRoom "p1",
        Event.presence (some "own1") Role.OWNER "join"⟩] ∧
    (handleJoin ctxC2 ⟨[]⟩ storeC2 none "p1" none
        (some "tok")).joinedRoom = some "p1" ∧
    getRoom (handleJoin ctxC2 ⟨[]⟩ storeC2 none "p1" none
        (some "tok")).rt "p1" = none ∧
    queuePatch (handleJoin ctxC2 ⟨[]⟩ storeC2 none "p1" none
        (some "tok")).rt "p1" (Json.str "x") =
      ((handleJoin ctxC2 ⟨[]⟩ storeC2 none "p1" none (some "tok")).rt,
       false) :=
  ⟨rfl, rfl, rfl, rfl⟩

/-- C10: once the authToken verifies to a userId, the entire join outcome —
events, cached connection data, joined group, realtime state and store — is
the same for every value of the share token: the share-link validator is
never consulted on an authenticated join. -/
theorem C10_authenticated_join_ignores_share_token
    (ctx : GatewayCtx) (rt : RtState) (store : Store)
    (cd : Option ConnData) (p : String) (tok : Option String) (u : String)
    (hu : parseUserIdFromToken ctx tok = some u)
    (st1 st2 : Option String) :
    handleJoin ctx rt store cd p st1 tok =
      handleJoin ctx rt store cd p st2 tok := by
  unfold handleJoin
  simp only [hu]

/-- Witness for C10: absent versus present share token give the same
outcome for an authenticated join. -/
theorem C10_authenticated_join_ignores_share_token_witness :
    parseUserIdFromToken
        ⟨fun _ => some "u1", fun _ _ => true, fun _ => none, "T0", "T1"⟩
        (some "tok") = some "u1" ∧
    handleJoin
        ⟨fun _ => some "u1", fun _ _ => true, fun _ => none, "T0", "T1"⟩
        ⟨[]⟩ ⟨[], [], [], []⟩ none "p1" none (some "tok") =
      handleJoin
        ⟨fun _ => some "u1", fun _ _ => true, fun _ => none, "T0", "T1"⟩
        ⟨[]⟩ ⟨[], [], [], []⟩ none "p1" (some "share") (some "tok") :=
  ⟨rfl,
   C10_authenticated_join_ignores_share_token
     ⟨fun _ => some "u1", fun _ _ => true, fun _ => none, "T0", "T1"⟩
     ⟨[]⟩ ⟨[], [], [], []⟩ none "p1" (some "tok") "u1" rfl none
     (some "share")⟩
